import Mathlib

/-!
Shallow embedding of `src/coursera/coursera.py`: the argument record
produced by `parse_args` and the `validate_args` function, together with
theorems settling the behavioural claims about argument validation,
credential resolution and scope-filter compilation.

External collaborators (`os.path.exists`, `utils.netrc_credentials`,
`getpass.getpass`) are modelled as oracle functions collected in an `Env`
record; "collaborator X is never consulted" is expressed as independence
of the result from the corresponding oracle.
-/

namespace Coursera

/-- ASCII whitespace recognised by Python `str.split()` with no argument. -/
def isPySpace (c : Char) : Bool :=
  c == ' ' || c == '\t' || c == '\n' || c == '\r' ||
    c == Char.ofNat 11 || c == Char.ofNat 12

/-- Chunks of a character list delimited by whitespace characters; empty
chunks are produced between adjacent delimiters. -/
def pySplitChunks : List Char → List Char → List (List Char)
  | [], acc => [acc.reverse]
  | c :: cs, acc =>
    if isPySpace c then acc.reverse :: pySplitChunks cs []
    else pySplitChunks cs (c :: acc)

/-- Python `s.split()`: split on runs of whitespace, discarding empty pieces. -/
def pySplit (s : String) : List String :=
  ((pySplitChunks s.data []).map (fun cs => (⟨cs⟩ : String))).filter
    (fun t => t ≠ "")

/-- Digit run of a Python base-10 int literal: at least one digit, with single
underscores allowed strictly between digits.  `lastDigit` records whether the
previous character was a digit. -/
def pyIntDigits : List Char → Nat → Bool → Option Nat
  | [], acc, lastDigit => if lastDigit then some acc else none
  | c :: cs, acc, lastDigit =>
    if c.isDigit then pyIntDigits cs (acc * 10 + (c.toNat - 48)) true
    else if c == '_' then
      (if lastDigit then pyIntDigits cs acc false else none)
    else none

/-- ASCII model of Python `int(str)`: optional surrounding whitespace, an
optional sign, then a digit run; anything else raises `ValueError` (`none`). -/
def pyInt (s : String) : Option Int :=
  let cs := ((s.data.dropWhile isPySpace).reverse.dropWhile isPySpace).reverse
  match cs with
  | '-' :: rest => (pyIntDigits rest 0 false).map (fun n => -(n : Int))
  | '+' :: rest => (pyIntDigits rest 0 false).map (fun n => (n : Int))
  | rest => (pyIntDigits rest 0 false).map (fun n => (n : Int))

/-- Python `s.lstrip('.')`: remove every leading dot. -/
def pyLstripDot (s : String) : String :=
  ⟨s.data.dropWhile (fun c => c == '.')⟩

/-- The value of `args.netrc`: argparse default `None`, the const `True` when
`--netrc` is given bare, or an explicit path string. -/
inductive NetrcVal where
  | unset
  | flagTrue
  | path (p : String)
deriving DecidableEq, Repr

/-- Python truthiness of an optional string (`None` and `""` are falsy). -/
def pyTruthyStrOpt : Option String → Bool
  | none => false
  | some s => s != ""

/-- Python truthiness of the `args.netrc` value. -/
def netrcTruthy : NetrcVal → Bool
  | .unset => false
  | .flagTrue => true
  | .path p => p != ""

/-- Embeds `None if args.netrc is True else args.netrc`, the argument handed to
`netrc_credentials`. -/
def netrcArg : NetrcVal → Option String
  | .unset => none
  | .flagTrue => none
  | .path p => some p

/-- Field `args.sections` holds a string after parsing and is re-bound to a list of
integers by `validate_args` (Python attributes are dynamically typed). -/
inductive StrOrIntList where
  | str (s : String)
  | ints (l : List Int)
deriving DecidableEq, Repr

/-- Fields `args.formats` / `args.skip_formats` hold a string after parsing and are
re-bound to lists of strings by `validate_args`. -/
inductive StrOrStrList where
  | str (s : String)
  | strs (l : List String)
deriving DecidableEq, Repr

/-- The argument record produced by `parse_args`, one field per `dest`, with
the argparse defaults as default field values. -/
structure Args where
  course : List String := []
  preview : Bool := false
  about : Bool := false
  reverse : Bool := false
  parser : String := "html5lib"
  proxy : Option String := none
  hooks : List String := []
  playlist : Bool := false
  username : Option String := none
  password : Option String := none
  netrc : NetrcVal := .unset
  sections : StrOrIntList := .str ""
  formats : StrOrStrList := .str ""
  skip_formats : StrOrStrList := .str ""
  section_filter : Option String := none
  lecture_filter : Option String := none
  resource_filter : Option String := none
  destination : String := "."
  output : String := "."
  archive : Bool := false
  overwrite : Bool := false
  max_filename_length : Int := 100
  wget : Option String := none
  curl : Option String := none
  aria2 : Option String := none
  axel : Option String := none
  cookies : Option String := none
  lectures_page : Option String := none
  skip_download : Bool := false
  simulate : Bool := false
  debug : Bool := false
  quiet : Bool := false
  cache_dir : Option String := none
  no_cache_dir : Bool := false
  clear_cache : Bool := false
deriving DecidableEq, Repr

/-- The collaborators `validate_args` consumes, as oracles: `os.path.exists`,
`utils.netrc_credentials` (optional explicit path, `none` = default location)
and `getpass.getpass` (prompt text to entered secret). -/
structure Env where
  fs_exists : String → Bool
  netrc_credentials : Option String → Option (String × String)
  getpass : String → String

/-- Terminal outcomes of `validate_args` other than success.  Every
constructor corresponds to a `sys.exit(1)` call or to an uncaught exception,
so the process exit status is 1 in each case. -/
inductive VErr where
  | invalidParser
  | invalidSections
  | attributeError
  | cookiesNotFound
  | noNetrcCreds
  | missingUsername
deriving DecidableEq, Repr

/-- Embeds `args.sections = [int(x) for x in args.sections.split()]` inside
`try/except`: on a string, an all-or-nothing left-to-right integer parse; on a
list (an already-validated record) `.split()` raises `AttributeError`, which
the surrounding bare `except` also catches. -/
def sectionsStep : StrOrIntList → Option StrOrIntList
  | .str s => ((pySplit s).mapM pyInt).map .ints
  | .ints _ => none

/-- Embeds `[s.lstrip('.') for s in v.split()]`; on a list, `.split()` raises an
(uncaught) `AttributeError`. -/
def formatsStep : StrOrStrList → Option StrOrStrList
  | .str s => some (.strs ((pySplit s).map pyLstripDot))
  | .strs _ => none

/-- Shallow embedding of `validate_args` (coursera.py lines 283-333).  The
`sys.version_info` warning is logging-only and therefore omitted; the
`logging.error` calls are represented by the `VErr` constructors. -/
def validate_args (env : Env) (a : Args) : Except VErr Args :=
  if a.parser ∉ ["html5lib", "html.parser", "lxml"] then
    .error .invalidParser
  else
    match sectionsStep a.sections with
    | none => .error .invalidSections
    | some secs =>
      match formatsStep a.formats with
      | none => .error .attributeError
      | some fmts =>
        match formatsStep a.skip_formats with
        | none => .error .attributeError
        | some skips =>
          let a := { a with sections := secs, formats := fmts, skip_formats := skips }
          if pyTruthyStrOpt a.cookies then
            if env.fs_exists (a.cookies.getD "") then .ok a
            else .error .cookiesNotFound
          else if netrcTruthy a.netrc then
            match env.netrc_credentials (netrcArg a.netrc) with
            | none => .error .noNetrcCreds
            | some cred => .ok { a with username := some cred.1, password := some cred.2 }
          else if !(pyTruthyStrOpt a.username) then .error .missingUsername
          else if !(pyTruthyStrOpt a.password) then
            .ok { a with password := some (env.getpass ("Coursera password for " ++ a.username.getD "" ++ ": ")) }
          else .ok a

/-- The fields of `Args` that `validate_args` reads or writes; every other
field is carried through untouched. -/
structure Core where
  parser : String
  sections : StrOrIntList
  formats : StrOrStrList
  skip_formats : StrOrStrList
  cookies : Option String
  netrc : NetrcVal
  username : Option String
  password : Option String
deriving DecidableEq, Repr

/-- Project an argument record onto the fields `validate_args` consults. -/
def coreOf (a : Args) : Core :=
  { parser := a.parser, sections := a.sections, formats := a.formats,
    skip_formats := a.skip_formats, cookies := a.cookies, netrc := a.netrc,
    username := a.username, password := a.password }

/-- Write the mutable fields of a validated core back into a record. -/
def patchCore (a : Args) (c : Core) : Args :=
  { a with
    sections := c.sections
    formats := c.formats
    skip_formats := c.skip_formats
    username := c.username
    password := c.password }

/-- The function `validate_args` restricted to the fields it consults. -/
def validate_core (env : Env) (c : Core) : Except VErr Core :=
  if c.parser ∉ ["html5lib", "html.parser", "lxml"] then
    .error .invalidParser
  else
    match sectionsStep c.sections with
    | none => .error .invalidSections
    | some secs =>
      match formatsStep c.formats with
      | none => .error .attributeError
      | some fmts =>
        match formatsStep c.skip_formats with
        | none => .error .attributeError
        | some skips =>
          let c := { c with sections := secs, formats := fmts, skip_formats := skips }
          if pyTruthyStrOpt c.cookies then
            if env.fs_exists (c.cookies.getD "") then .ok c
            else .error .cookiesNotFound
          else if netrcTruthy c.netrc then
            match env.netrc_credentials (netrcArg c.netrc) with
            | none => .error .noNetrcCreds
            | some cred => .ok { c with username := some cred.1, password := some cred.2 }
          else if !(pyTruthyStrOpt c.username) then .error .missingUsername
          else if !(pyTruthyStrOpt c.password) then
            .ok { c with password := some (env.getpass ("Coursera password for " ++ c.username.getD "" ++ ": ")) }
          else .ok c

theorem validate_factor (env : Env) (a : Args) :
    validate_args env a = (validate_core env (coreOf a)).map (patchCore a) := by
  unfold validate_args validate_core coreOf
  dsimp only
  split
  · rfl
  · cases hs : sectionsStep a.sections with
    | none => rfl
    | some secs =>
      cases hf : formatsStep a.formats with
      | none => simp only [hs, hf]; rfl
      | some fmts =>
        cases hk : formatsStep a.skip_formats with
        | none => simp only [hs, hf, hk]; rfl
        | some skips =>
          simp only [hs, hf, hk]
          split
          · split <;> rfl
          · split
            · cases hn : env.netrc_credentials (netrcArg a.netrc) <;> rfl
            · split
              · rfl
              · split <;> rfl

/-- When `--cookies` is truthy, validation after the scope-filter stage only
consults `os.path.exists`: it never resolves credentials. -/
theorem validate_args_cookies_char (env : Env) (a : Args)
    (hp : a.parser ∈ ["html5lib", "html.parser", "lxml"])
    (hc : pyTruthyStrOpt a.cookies = true) :
    validate_args env a =
      match sectionsStep a.sections with
      | none => .error .invalidSections
      | some secs =>
        match formatsStep a.formats with
        | none => .error .attributeError
        | some fmts =>
          match formatsStep a.skip_formats with
          | none => .error .attributeError
          | some skips =>
            if env.fs_exists (a.cookies.getD "") then
              .ok { a with sections := secs, formats := fmts, skip_formats := skips }
            else .error .cookiesNotFound := by
  unfold validate_args
  rw [if_neg (not_not_intro hp)]
  cases hs : sectionsStep a.sections with
  | none => rfl
  | some secs =>
    cases hf : formatsStep a.formats with
    | none => rfl
    | some fmts =>
      cases hk : formatsStep a.skip_formats with
      | none => rfl
      | some skips =>
        simp only [hc, if_true]

/-- When `--cookies`, `--netrc` and `--username` are all falsy, validation is
independent of every collaborator and ends in an error. -/
theorem validate_args_noCreds_char (env : Env) (a : Args)
    (hc : pyTruthyStrOpt a.cookies = false)
    (hn : netrcTruthy a.netrc = false)
    (hu : pyTruthyStrOpt a.username = false) :
    validate_args env a =
      if a.parser ∉ ["html5lib", "html.parser", "lxml"] then
        .error .invalidParser
      else
        match sectionsStep a.sections with
        | none => .error .invalidSections
        | some _ =>
          match formatsStep a.formats with
          | none => .error .attributeError
          | some _ =>
            match formatsStep a.skip_formats with
            | none => .error .attributeError
            | some _ => .error .missingUsername := by
  unfold validate_args
  split
  · rfl
  · cases hs : sectionsStep a.sections with
    | none => rfl
    | some secs =>
      cases hf : formatsStep a.formats with
      | none => rfl
      | some fmts =>
        cases hk : formatsStep a.skip_formats with
        | none => rfl
        | some skips =>
          simp only [hc, hn, hu, Bool.false_eq_true, if_false, Bool.not_false, if_true]

/-- When `--cookies` and `--netrc` are falsy and `--username` is truthy while
`--password` is falsy, validation succeeds by prompting for the password. -/
theorem validate_args_prompt_char (env : Env) (a : Args)
    (hp : a.parser ∈ ["html5lib", "html.parser", "lxml"])
    (hc : pyTruthyStrOpt a.cookies = false)
    (hn : netrcTruthy a.netrc = false)
    (hu : pyTruthyStrOpt a.username = true)
    (hw : pyTruthyStrOpt a.password = false) :
    validate_args env a =
      match sectionsStep a.sections with
      | none => .error .invalidSections
      | some secs =>
        match formatsStep a.formats with
        | none => .error .attributeError
        | some fmts =>
          match formatsStep a.skip_formats with
          | none => .error .attributeError
          | some skips =>
            .ok { a with
                  sections := secs
                  formats := fmts
                  skip_formats := skips
                  password := some (env.getpass
                    ("Coursera password for " ++ a.username.getD "" ++ ": ")) } := by
  unfold validate_args
  rw [if_neg (not_not_intro hp)]
  cases hs : sectionsStep a.sections with
  | none => rfl
  | some secs =>
    cases hf : formatsStep a.formats with
    | none => rfl
    | some fmts =>
      cases hk : formatsStep a.skip_formats with
      | none => rfl
      | some skips =>
        simp only [hc, hn, hu, hw, Bool.false_eq_true, if_false, Bool.not_false,
          Bool.not_true, if_true]

/-- The record `parse_args` yields when no option is given (all defaults). -/
def baseArgs : Args := {}

/-- Oracle bundle: every path exists, the netrc lookup finds a fixed pair,
the prompt returns a fixed secret. -/
def envAllYes : Env :=
  { fs_exists := fun _ => true
    netrc_credentials := fun _ => some ("netrcUser", "netrcPass")
    getpass := fun _ => "typedSecret" }

/-- Oracle bundle: no path exists, the netrc lookup finds nothing, the prompt
returns a fixed secret. -/
def envAllNo : Env :=
  { fs_exists := fun _ => false
    netrc_credentials := fun _ => none
    getpass := fun _ => "typedSecret" }

/-- Modelled from the spec for comparison with the code: a format token
"retains its text minus at most one leading dot". -/
def specStripOneDot (s : String) : String :=
  match s.data with
  | '.' :: rest => ⟨rest⟩
  | _ => s

/-- Inversion: a successful validation implies the parser name was admissible,
the raw scope fields were strings, every section token parsed, and the output
scope fields are exactly the parsed lists. -/
theorem validate_args_ok_scope (env : Env) (a b : Args)
    (h : validate_args env a = .ok b) :
    a.parser ∈ ["html5lib", "html.parser", "lxml"] ∧
    ∃ s fs ks l, a.sections = .str s ∧ a.formats = .str fs ∧
      a.skip_formats = .str ks ∧ (pySplit s).mapM pyInt = some l ∧
      b.sections = .ints l ∧
      b.formats = .strs ((pySplit fs).map pyLstripDot) ∧
      b.skip_formats = .strs ((pySplit ks).map pyLstripDot) := by
  unfold validate_args at h
  split at h
  · cases h
  next hp =>
    rw [not_not] at hp
    refine ⟨hp, ?_⟩
    split at h
    · cases h
    next secs hsec =>
      cases ha : a.sections with
      | ints l0 => rw [ha] at hsec; cases hsec
      | str s =>
        rw [ha] at hsec
        simp only [sectionsStep, Option.map_eq_some'] at hsec
        obtain ⟨l, hl, hsecs⟩ := hsec
        split at h
        · cases h
        next fmts hfmt =>
          cases haf : a.formats with
          | strs _ => rw [haf] at hfmt; cases hfmt
          | str fs =>
            rw [haf] at hfmt
            simp only [formatsStep, Option.some.injEq] at hfmt
            split at h
            · cases h
            next skips hskip =>
              cases hak : a.skip_formats with
              | strs _ => rw [hak] at hskip; cases hskip
              | str ks =>
                rw [hak] at hskip
                simp only [formatsStep, Option.some.injEq] at hskip
                refine ⟨s, fs, ks, l, rfl, rfl, rfl, hl, ?_⟩
                subst hsecs hfmt hskip
                dsimp only at h
                split at h
                · split at h
                  · injection h with h2; subst h2; exact ⟨rfl, rfl, rfl⟩
                  · cases h
                · split at h
                  · split at h
                    · cases h
                    · injection h with h2; subst h2; exact ⟨rfl, rfl, rfl⟩
                  · split at h
                    · cases h
                    · split at h
                      · injection h with h2; subst h2; exact ⟨rfl, rfl, rfl⟩
                      · injection h with h2; subst h2; exact ⟨rfl, rfl, rfl⟩

/-- Inversion: the "Invalid sections list" exit can only come from the
sections parse (a non-integer token, or a non-string field). -/
theorem validate_args_invalidSections_inv (env : Env) (a : Args)
    (h : validate_args env a = .error .invalidSections) :
    sectionsStep a.sections = none := by
  unfold validate_args at h
  split at h
  · simp at h
  · split at h
    next hs => exact hs
    next secs hs =>
      split at h
      · simp at h
      · split at h
        · simp at h
        · dsimp only at h
          split at h
          · split at h <;> simp at h
          · split at h
            · split at h <;> simp at h
            · split at h
              · simp at h
              · split at h <;> simp at h

/-- Frame property of a successful validation: every field other than
`sections`, `formats`, `skip_formats`, `username`, `password` is returned
exactly as parsed. -/
theorem validate_args_frame (env : Env) (a b : Args)
    (h : validate_args env a = .ok b) :
    b.course = a.course ∧ b.preview = a.preview ∧ b.about = a.about ∧
    b.reverse = a.reverse ∧ b.parser = a.parser ∧ b.proxy = a.proxy ∧
    b.hooks = a.hooks ∧ b.playlist = a.playlist ∧ b.netrc = a.netrc ∧
    b.section_filter = a.section_filter ∧ b.lecture_filter = a.lecture_filter ∧
    b.resource_filter = a.resource_filter ∧ b.destination = a.destination ∧
    b.output = a.output ∧ b.archive = a.archive ∧ b.overwrite = a.overwrite ∧
    b.max_filename_length = a.max_filename_length ∧ b.wget = a.wget ∧
    b.curl = a.curl ∧ b.aria2 = a.aria2 ∧ b.axel = a.axel ∧
    b.cookies = a.cookies ∧ b.lectures_page = a.lectures_page ∧
    b.skip_download = a.skip_download ∧ b.simulate = a.simulate ∧
    b.debug = a.debug ∧ b.quiet = a.quiet ∧ b.cache_dir = a.cache_dir ∧
    b.no_cache_dir = a.no_cache_dir ∧ b.clear_cache = a.clear_cache := by
  rw [validate_factor] at h
  cases hv : validate_core env (coreOf a) with
  | error e => rw [hv] at h; cases h
  | ok c =>
    rw [hv] at h
    simp only [Except.map] at h
    injection h with h2
    subst h2
    exact ⟨rfl, rfl, rfl, rfl, rfl, rfl, rfl, rfl, rfl, rfl, rfl, rfl, rfl,
      rfl, rfl, rfl, rfl, rfl, rfl, rfl, rfl, rfl, rfl, rfl, rfl, rfl, rfl,
      rfl, rfl, rfl⟩

/-- C1: with `--cookies` set (truthy), validation performs no
username/password resolution at all — the result is independent of the
`netrc_credentials` and `getpass` oracles (even when `--netrc` is also set,
since `a.netrc` is unconstrained here) and on success `username`/`password`
are returned untouched; if the cookies path does not exist, validation fails
(exit status 1, `VErr.cookiesNotFound`) reporting the cookies file as not
found. -/
theorem claim_C1 (env env2 : Env) (a : Args) (cp s fs ks : String) (l : List Int)
    (hp : a.parser ∈ ["html5lib", "html.parser", "lxml"])
    (hcp : a.cookies = some cp) (hne : cp ≠ "")
    (hs : a.sections = .str s) (hl : (pySplit s).mapM pyInt = some l)
    (hf : a.formats = .str fs) (hk : a.skip_formats = .str ks)
    (hfs : env.fs_exists = env2.fs_exists) :
    validate_args env a = validate_args env2 a ∧
    (env.fs_exists cp = true →
      validate_args env a =
        .ok { a with
              sections := .ints l
              formats := .strs ((pySplit fs).map pyLstripDot)
              skip_formats := .strs ((pySplit ks).map pyLstripDot) }) ∧
    (env.fs_exists cp = false → validate_args env a = .error .cookiesNotFound) := by
  have hct : pyTruthyStrOpt a.cookies = true := by
    rw [hcp]; simp [pyTruthyStrOpt, hne]
  have hch := validate_args_cookies_char env a hp hct
  have hch2 := validate_args_cookies_char env2 a hp hct
  have hsec : sectionsStep a.sections = some (.ints l) := by
    rw [hs]; simp only [sectionsStep]; rw [hl]; rfl
  have hfmt : formatsStep a.formats = some (.strs ((pySplit fs).map pyLstripDot)) := by
    rw [hf]; rfl
  have hkk : formatsStep a.skip_formats = some (.strs ((pySplit ks).map pyLstripDot)) := by
    rw [hk]; rfl
  simp only [hsec, hfmt, hkk] at hch hch2
  refine ⟨?_, ?_, ?_⟩
  · rw [hch, hch2, hfs]
  · intro hex
    rw [hch, hcp]
    simp [Option.getD, hex]
  · intro hex
    rw [hch, hcp]
    simp [Option.getD, hex]

def aC1 : Args :=
  { baseArgs with
    cookies := some "cookies.txt"
    netrc := .flagTrue
    username := some "cliUser"
    password := some "cliPass"
    sections := .str "1 2"
    formats := .str "mp4 .pdf"
    skip_formats := .str "srt" }

/-- Same filesystem oracle as `envAllYes`, different netrc and prompt
oracles (a fabricated netrc that would otherwise succeed). -/
def envC1b : Env :=
  { fs_exists := fun _ => true
    netrc_credentials := fun _ => some ("otherUser", "otherPass")
    getpass := fun _ => "otherSecret" }

/-- C1 witness: a concrete run with both `--cookies` and `--netrc` set; the
fabricated netrc and prompt oracles do not influence the result, and the
explicit username/password are carried through untouched. -/
theorem claim_C1_w :
    validate_args envAllYes aC1 = validate_args envC1b aC1 ∧
    validate_args envAllYes aC1 =
      .ok { aC1 with
            sections := .ints [1, 2]
            formats := .strs ["mp4", "pdf"]
            skip_formats := .strs ["srt"] } := by
  obtain ⟨h1, h2, h3⟩ :=
    claim_C1 envAllYes envC1b aC1 "cookies.txt" "1 2" "mp4 .pdf" "srt" [1, 2]
      (by decide) rfl (by decide) rfl rfl rfl rfl rfl
  exact ⟨h1, h2 rfl⟩

def aC2 : Args :=
  { baseArgs with sections := .str "1 1", cookies := some "cookies.txt" }

/-- C2 counterexample: for `--sections "1 1"` validation produces the Python
list `[1, 1]` — duplicates are not collapsed (the code builds a list with a
comprehension, not a set), refuting the claim as stated. -/
theorem claim_C2_cex :
    validate_args envAllYes aC2 =
      .ok { aC2 with
            sections := .ints [1, 1]
            formats := .strs []
            skip_formats := .strs [] } ∧
    ¬ ([1, 1] : List Int).Nodup :=
  ⟨rfl, by decide⟩

/-- C2 amended: validation produces the LIST of parsed integers in token
order, duplicates retained (so the multiset of values matches the
whitespace-split tokens); for a string with a non-integer token it fails
(exit status 1, `VErr.invalidSections`) and no integers are produced. -/
theorem claim_C2_amended (env : Env) (a : Args) (s : String)
    (hp : a.parser ∈ ["html5lib", "html.parser", "lxml"])
    (hs : a.sections = .str s) :
    ((pySplit s).mapM pyInt = none →
      validate_args env a = .error .invalidSections) ∧
    (∀ l, (pySplit s).mapM pyInt = some l →
      validate_args env a ≠ .error .invalidSections ∧
      ∀ b, validate_args env a = .ok b → b.sections = .ints l) := by
  constructor
  · intro hnone
    unfold validate_args
    rw [if_neg (not_not_intro hp), hs]
    simp only [sectionsStep]
    rw [hnone]
    rfl
  · intro l hl
    constructor
    · intro hbad
      have hsn := validate_args_invalidSections_inv env a hbad
      rw [hs] at hsn
      simp only [sectionsStep] at hsn
      rw [hl] at hsn
      simp at hsn
    · intro b hb
      obtain ⟨-, s2, fs, ks, l2, hs2, -, -, hl2, hbs, -, -⟩ :=
        validate_args_ok_scope env a b hb
      rw [hs] at hs2
      injection hs2 with hs2
      subst hs2
      rw [hl] at hl2
      injection hl2 with hl2
      subst hl2
      exact hbs

def aC2w : Args :=
  { baseArgs with sections := .str "3 1 3", cookies := some "cookies.txt" }

def aC2bad : Args := { baseArgs with sections := .str "1 x" }

/-- C2 witness: a well-formed list is accepted, a list with the non-integer
token `x` is rejected all-or-nothing. -/
theorem claim_C2_amended_w :
    validate_args envAllYes aC2w ≠ .error .invalidSections ∧
    validate_args envAllYes aC2bad = .error .invalidSections := by
  refine ⟨((claim_C2_amended envAllYes aC2w "3 1 3" (by decide) rfl).2
    [3, 1, 3] rfl).1, ?_⟩
  exact (claim_C2_amended envAllYes aC2bad "1 x" (by decide) rfl).1 rfl

/-- C5: with neither `--username` nor `--netrc` nor `--cookies` set (by
Python truthiness), validation always fails (exit status 1), its result is
independent of every oracle — in particular the interactive password prompt
is never invoked — and when the earlier fail-fast checks pass the diagnostic
is the missing-username error. -/
theorem claim_C5 (env env2 : Env) (a : Args)
    (hc : pyTruthyStrOpt a.cookies = false)
    (hn : netrcTruthy a.netrc = false)
    (hu : pyTruthyStrOpt a.username = false) :
    (∃ e, validate_args env a = .error e) ∧
    validate_args env a = validate_args env2 a ∧
    (∀ s l fs ks, a.parser ∈ ["html5lib", "html.parser", "lxml"] →
      a.sections = .str s → (pySplit s).mapM pyInt = some l →
      a.formats = .str fs → a.skip_formats = .str ks →
      validate_args env a = .error .missingUsername) := by
  refine ⟨?_, ?_, ?_⟩
  · rw [validate_args_noCreds_char env a hc hn hu]
    split
    · exact ⟨_, rfl⟩
    · cases sectionsStep a.sections with
      | none => exact ⟨_, rfl⟩
      | some secs =>
        cases formatsStep a.formats with
        | none => exact ⟨_, rfl⟩
        | some fmts =>
          cases formatsStep a.skip_formats with
          | none => exact ⟨_, rfl⟩
          | some skips => exact ⟨_, rfl⟩
  · rw [validate_args_noCreds_char env a hc hn hu,
      validate_args_noCreds_char env2 a hc hn hu]
  · intro s l fs ks hp hs hl hf hk
    have hsec : sectionsStep a.sections = some (.ints l) := by
      rw [hs]; simp only [sectionsStep]; rw [hl]; rfl
    have hfmt : formatsStep a.formats
        = some (.strs ((pySplit fs).map pyLstripDot)) := by
      rw [hf]; rfl
    have hkk : formatsStep a.skip_formats
        = some (.strs ((pySplit ks).map pyLstripDot)) := by
      rw [hk]; rfl
    rw [validate_args_noCreds_char env a hc hn hu, if_neg (not_not_intro hp)]
    simp only [hsec, hfmt, hkk]

/-- C5 witness: the all-defaults record fails with the missing-username
diagnostic, identically under two opposite oracle bundles. -/
theorem claim_C5_w :
    validate_args envAllYes baseArgs = .error .missingUsername ∧
    validate_args envAllYes baseArgs = validate_args envAllNo baseArgs := by
  obtain ⟨h1, h2, h3⟩ := claim_C5 envAllYes envAllNo baseArgs rfl rfl rfl
  exact ⟨h3 "" [] "" "" (by decide) rfl rfl rfl rfl, h2⟩

/-- C10: credential options given as empty strings behave exactly as if
absent — `validate_args` tests `--cookies`, `--netrc`, `--username` and
`--password` by Python truthiness.  Under empty-string cookies/netrc values
(no file check, no netrc lookup, for any oracle), an empty-string username
fails with the missing-username diagnostic, and an empty-string password
triggers the interactive prompt. -/
theorem claim_C10 (env : Env) (a : Args) (s fs ks : String) (l : List Int)
    (hp : a.parser ∈ ["html5lib", "html.parser", "lxml"])
    (hs : a.sections = .str s) (hl : (pySplit s).mapM pyInt = some l)
    (hf : a.formats = .str fs) (hk : a.skip_formats = .str ks)
    (hc : a.cookies = some "" ∨ a.cookies = none)
    (hn : a.netrc = .path "" ∨ a.netrc = .unset) :
    ((a.username = some "" ∨ a.username = none) →
      validate_args env a = .error .missingUsername) ∧
    (∀ u, a.username = some u → u ≠ "" →
      (a.password = some "" ∨ a.password = none) →
      validate_args env a =
        .ok { a with
              sections := .ints l
              formats := .strs ((pySplit fs).map pyLstripDot)
              skip_formats := .strs ((pySplit ks).map pyLstripDot)
              password := some (env.getpass
                ("Coursera password for " ++ u ++ ": ")) }) := by
  have hc2 : pyTruthyStrOpt a.cookies = false := by
    rcases hc with h | h <;> rw [h] <;> rfl
  have hn2 : netrcTruthy a.netrc = false := by
    rcases hn with h | h <;> rw [h] <;> rfl
  have hsec : sectionsStep a.sections = some (.ints l) := by
    rw [hs]; simp only [sectionsStep]; rw [hl]; rfl
  have hfmt : formatsStep a.formats
      = some (.strs ((pySplit fs).map pyLstripDot)) := by
    rw [hf]; rfl
  have hkk : formatsStep a.skip_formats
      = some (.strs ((pySplit ks).map pyLstripDot)) := by
    rw [hk]; rfl
  constructor
  · intro hu
    have hu2 : pyTruthyStrOpt a.username = false := by
      rcases hu with h | h <;> rw [h] <;> rfl
    rw [validate_args_noCreds_char env a hc2 hn2 hu2, if_neg (not_not_intro hp)]
    simp only [hsec, hfmt, hkk]
  · intro u huu hune hpw
    have hu2 : pyTruthyStrOpt a.username = true := by
      rw [huu]; simp [pyTruthyStrOpt, hune]
    have hw2 : pyTruthyStrOpt a.password = false := by
      rcases hpw with h | h <;> rw [h] <;> rfl
    rw [validate_args_prompt_char env a hp hc2 hn2 hu2 hw2]
    simp only [hsec, hfmt, hkk]
    rw [huu]
    rfl

def aC10a : Args :=
  { baseArgs with
    username := some ""
    cookies := some ""
    netrc := .path "" }

def aC10b : Args :=
  { baseArgs with
    username := some "alice"
    password := some ""
    cookies := some ""
    netrc := .path "" }

/-- C10 witness: under `envAllNo` (where any consulted path would be
missing and any netrc lookup would fail) the empty cookie/netrc strings are
skipped rather than checked; `--username ""` fails as missing and
`--password ""` is prompted for. -/
theorem claim_C10_w :
    validate_args envAllNo aC10a = .error .missingUsername ∧
    validate_args envAllNo aC10b =
      .ok { aC10b with
            sections := .ints []
            formats := .strs []
            skip_formats := .strs []
            password := some "typedSecret" } := by
  constructor
  · exact (claim_C10 envAllNo aC10a "" "" "" [] (by decide) rfl rfl rfl rfl
      (.inl rfl) (.inl rfl)).1 (.inl rfl)
  · exact (claim_C10 envAllNo aC10b "" "" "" [] (by decide) rfl rfl rfl rfl
      (.inl rfl) (.inl rfl)).2 "alice" rfl (by decide) (.inl rfl)

/-- C9: frame property — on every successful run `validate_args` modifies
only `sections`, `formats`, `skip_formats`, `username` and `password`; every
other field of the argument record is returned exactly as parsed. -/
theorem claim_C9 (env : Env) (a b : Args)
    (h : validate_args env a = .ok b) :
    b.course = a.course ∧ b.preview = a.preview ∧ b.about = a.about ∧
    b.reverse = a.reverse ∧ b.parser = a.parser ∧ b.proxy = a.proxy ∧
    b.hooks = a.hooks ∧ b.playlist = a.playlist ∧ b.netrc = a.netrc ∧
    b.section_filter = a.section_filter ∧ b.lecture_filter = a.lecture_filter ∧
    b.resource_filter = a.resource_filter ∧ b.destination = a.destination ∧
    b.output = a.output ∧ b.archive = a.archive ∧ b.overwrite = a.overwrite ∧
    b.max_filename_length = a.max_filename_length ∧ b.wget = a.wget ∧
    b.curl = a.curl ∧ b.aria2 = a.aria2 ∧ b.axel = a.axel ∧
    b.cookies = a.cookies ∧ b.lectures_page = a.lectures_page ∧
    b.skip_download = a.skip_download ∧ b.simulate = a.simulate ∧
    b.debug = a.debug ∧ b.quiet = a.quiet ∧ b.cache_dir = a.cache_dir ∧
    b.no_cache_dir = a.no_cache_dir ∧ b.clear_cache = a.clear_cache :=
  validate_args_frame env a b h

def aC9 : Args :=
  { baseArgs with
    course := ["ml-001"]
    cookies := some "cookies.txt"
    sections := .str "2"
    wget := some "wget"
    max_filename_length := 7
    destination := "down"
    proxy := some "http-proxy"
    hooks := ["echo done"]
    debug := true }

def bC9 : Args :=
  { aC9 with sections := .ints [2], formats := .strs [], skip_formats := .strs [] }

/-- C9 witness: a concrete successful run carries every non-scope,
non-credential field through unchanged. -/
theorem claim_C9_w :
    bC9.course = aC9.course ∧ bC9.preview = aC9.preview ∧ bC9.about = aC9.about ∧
    bC9.reverse = aC9.reverse ∧ bC9.parser = aC9.parser ∧ bC9.proxy = aC9.proxy ∧
    bC9.hooks = aC9.hooks ∧ bC9.playlist = aC9.playlist ∧ bC9.netrc = aC9.netrc ∧
    bC9.section_filter = aC9.section_filter ∧ bC9.lecture_filter = aC9.lecture_filter ∧
    bC9.resource_filter = aC9.resource_filter ∧ bC9.destination = aC9.destination ∧
    bC9.output = aC9.output ∧ bC9.archive = aC9.archive ∧ bC9.overwrite = aC9.overwrite ∧
    bC9.max_filename_length = aC9.max_filename_length ∧ bC9.wget = aC9.wget ∧
    bC9.curl = aC9.curl ∧ bC9.aria2 = aC9.aria2 ∧ bC9.axel = aC9.axel ∧
    bC9.cookies = aC9.cookies ∧ bC9.lectures_page = aC9.lectures_page ∧
    bC9.skip_download = aC9.skip_download ∧ bC9.simulate = aC9.simulate ∧
    bC9.debug = aC9.debug ∧ bC9.quiet = aC9.quiet ∧ bC9.cache_dir = aC9.cache_dir ∧
    bC9.no_cache_dir = aC9.no_cache_dir ∧ bC9.clear_cache = aC9.clear_cache :=
  claim_C9 envAllYes aC9 bC9 rfl

def aC8 : Args :=
  { baseArgs with sections := .str "1", cookies := some "cookies.txt" }

def bC8 : Args :=
  { aC8 with sections := .ints [1], formats := .strs [], skip_formats := .strs [] }

/-- C8 counterexample: re-applying validation to an already-validated
argument set breaks the outcome — the first run succeeds, the second exits
with status 1 (`VErr.invalidSections`) because `sections` is now a list of
integers and `.split()` raises `AttributeError` inside the guarded parse. -/
theorem claim_C8_cex :
    validate_args envAllYes aC8 = .ok bC8 ∧
    validate_args envAllYes bC8 = .error .invalidSections :=
  ⟨rfl, rfl⟩

/-- C8 amended: compiling the scope filter twice from the same raw string
set yields structurally equal results (parsing is deterministic), but
re-applying validation to an already-validated record always fails with exit
status 1, since `sections` is no longer a string. -/
theorem claim_C8_amended (env env2 env3 : Env) (a a2 b b2 : Args)
    (h : validate_args env a = .ok b) (h2 : validate_args env2 a2 = .ok b2)
    (hs : a.sections = a2.sections) (hf : a.formats = a2.formats)
    (hk : a.skip_formats = a2.skip_formats) :
    (b.sections = b2.sections ∧ b.formats = b2.formats ∧
      b.skip_formats = b2.skip_formats) ∧
    validate_args env3 b = .error .invalidSections := by
  obtain ⟨hp1, s1, fs1, ks1, l1, has1, haf1, hak1, hl1, hbs1, hbf1, hbk1⟩ :=
    validate_args_ok_scope env a b h
  obtain ⟨hp2, s2, fs2, ks2, l2, has2, haf2, hak2, hl2, hbs2, hbf2, hbk2⟩ :=
    validate_args_ok_scope env2 a2 b2 h2
  have hbp : b.parser = a.parser := (validate_args_frame env a b h).2.2.2.2.1
  rw [has1] at hs
  rw [has2] at hs
  injection hs with hss
  subst hss
  rw [haf1] at hf
  rw [haf2] at hf
  injection hf with hff
  subst hff
  rw [hak1] at hk
  rw [hak2] at hk
  injection hk with hkk
  subst hkk
  rw [hl1] at hl2
  injection hl2 with hll
  subst hll
  refine ⟨⟨?_, ?_, ?_⟩, ?_⟩
  · rw [hbs1, hbs2]
  · rw [hbf1, hbf2]
  · rw [hbk1, hbk2]
  · unfold validate_args
    rw [if_neg (not_not_intro (by rw [hbp]; exact hp1)), hbs1]
    rfl

/-- C8 witness: the concrete run of the counterexample pair, applied through
the amended theorem. -/
theorem claim_C8_amended_w :
    (bC8.sections = bC8.sections ∧ bC8.formats = bC8.formats ∧
      bC8.skip_formats = bC8.skip_formats) ∧
    validate_args envAllNo bC8 = .error .invalidSections :=
  claim_C8_amended envAllYes envAllYes envAllNo aC8 aC8 bC8 bC8 rfl rfl rfl rfl rfl

def aC3 : Args :=
  { baseArgs with
    wget := some "wget"
    curl := some "curl"
    aria2 := some "aria2c"
    cookies := some "cookies.txt" }

/-- C3 counterexample: a run selecting three external download backends
simultaneously passes validation — no cross-field error is raised anywhere
(neither `parse_args` nor `validate_args` relates the four backend options). -/
theorem claim_C3_cex :
    validate_args envAllYes aC3 =
      .ok { aC3 with
            sections := .ints []
            formats := .strs []
            skip_formats := .strs [] } ∧
    aC3.wget = some "wget" ∧ aC3.curl = some "curl" ∧ aC3.aria2 = some "aria2c" :=
  ⟨rfl, rfl, rfl, rfl⟩

/-- C3 amended: validation performs no backend mutual-exclusion check — the
four backend fields are never read, only passed through unchanged, so any
combination of `--wget`/`--curl`/`--aria2`/`--axel` validates exactly as the
same record with none of them. -/
theorem claim_C3_amended (env : Env) (a : Args) (w c r x : Option String) :
    validate_args env { a with wget := w, curl := c, aria2 := r, axel := x } =
      (validate_args env a).map
        (fun b => { b with wget := w, curl := c, aria2 := r, axel := x }) := by
  rw [validate_factor, validate_factor]
  have hco : coreOf { a with wget := w, curl := c, aria2 := r, axel := x }
      = coreOf a := rfl
  rw [hco]
  cases validate_core env (coreOf a) <;> rfl

def aC6 : Args :=
  { baseArgs with max_filename_length := 0, cookies := some "cookies.txt" }

def aC6d : Args := { baseArgs with cookies := some "cookies.txt" }

/-- C6 counterexample: `--max-filename-length 0` passes validation — no
positivity check of `max_filename_length` exists in the code; the default
100 passes as well (that half of the claim holds). -/
theorem claim_C6_cex :
    validate_args envAllYes aC6 =
      .ok { aC6 with
            sections := .ints []
            formats := .strs []
            skip_formats := .strs [] } ∧
    aC6.max_filename_length = 0 ∧
    validate_args envAllYes aC6d =
      .ok { aC6d with
            sections := .ints []
            formats := .strs []
            skip_formats := .strs [] } ∧
    aC6d.max_filename_length = 100 :=
  ⟨rfl, rfl, rfl, rfl⟩

/-- C6 amended: validation never reads `max_filename_length`; the field is
passed through unchanged and any value — positive, zero or negative —
validates exactly as the default. -/
theorem claim_C6_amended (env : Env) (a : Args) (n : Int) :
    validate_args env { a with max_filename_length := n } =
      (validate_args env a).map (fun b => { b with max_filename_length := n }) := by
  rw [validate_factor, validate_factor]
  have hco : coreOf { a with max_filename_length := n } = coreOf a := rfl
  rw [hco]
  cases validate_core env (coreOf a) <;> rfl

def aC7 : Args :=
  { baseArgs with
    section_filter := some "["
    lecture_filter := some "("
    resource_filter := some "(?P<"
    cookies := some "cookies.txt" }

/-- C7 counterexample: the three regex filter options are never compiled
during validation.  `[`, `(` and `(?P<` are all malformed Python `re`
patterns, yet the run passes validation and the patterns are carried through
uncompiled and unchecked. -/
theorem claim_C7_cex :
    validate_args envAllYes aC7 =
      .ok { aC7 with
            sections := .ints []
            formats := .strs []
            skip_formats := .strs [] } ∧
    aC7.section_filter = some "[" ∧ aC7.lecture_filter = some "(" ∧
    aC7.resource_filter = some "(?P<" :=
  ⟨rfl, rfl, rfl, rfl⟩

/-- C7 amended: validation never reads `section_filter`, `lecture_filter` or
`resource_filter`; the three fields are passed through unchanged and no
pattern — well-formed or malformed — can cause a validation failure. -/
theorem claim_C7_amended (env : Env) (a : Args) (sf lf rf : Option String) :
    validate_args env
        { a with section_filter := sf, lecture_filter := lf, resource_filter := rf } =
      (validate_args env a).map
        (fun b => { b with section_filter := sf, lecture_filter := lf, resource_filter := rf }) := by
  rw [validate_factor, validate_factor]
  have hco : coreOf { a with section_filter := sf, lecture_filter := lf, resource_filter := rf }
      = coreOf a := rfl
  rw [hco]
  cases validate_core env (coreOf a) <;> rfl

def aC4 : Args :=
  { baseArgs with formats := .str "..pdf", cookies := some "cookies.txt" }

/-- C4 counterexample: `lstrip('.')` removes EVERY leading dot, so a token
with two leading dots keeps none of them: `..pdf` becomes `pdf`, while the
claim's one-dot strip (`specStripOneDot`, written from the spec) predicts
`.pdf`. -/
theorem claim_C4_cex :
    validate_args envAllYes aC4 =
      .ok { aC4 with
            sections := .ints []
            formats := .strs ["pdf"]
            skip_formats := .strs [] } ∧
    specStripOneDot "..pdf" = ".pdf" ∧
    StrOrStrList.strs ["pdf"] ≠ StrOrStrList.strs [".pdf"] :=
  ⟨rfl, rfl, by decide⟩

/-- C4 amended: each whitespace-split token of `--formats` and
`--skip-formats` retains its text minus ALL leading dots (`pyLstripDot`),
and the treatment of the two options is identical (the same transform is
applied to both, case preserved). -/
theorem claim_C4_amended (env : Env) (a b : Args) (fs ks : String)
    (hf : a.formats = .str fs) (hk : a.skip_formats = .str ks)
    (h : validate_args env a = .ok b) :
    b.formats = .strs ((pySplit fs).map pyLstripDot) ∧
    b.skip_formats = .strs ((pySplit ks).map pyLstripDot) := by
  obtain ⟨-, s2, fs2, ks2, l2, -, haf, hak, -, -, hbf, hbk⟩ :=
    validate_args_ok_scope env a b h
  rw [hf] at haf
  injection haf with haf
  subst haf
  rw [hk] at hak
  injection hak with hak
  subst hak
  exact ⟨hbf, hbk⟩

def aC4w : Args :=
  { baseArgs with
    formats := .str "mp4 .pdf ..srt"
    skip_formats := .str ".PPT"
    cookies := some "cookies.txt" }

def bC4w : Args :=
  { aC4w with
    sections := .ints []
    formats := .strs ["mp4", "pdf", "srt"]
    skip_formats := .strs ["PPT"] }

/-- C4 witness: a concrete run; note the preserved upper case of `PPT` and
the identical dot-stripping for both options. -/
theorem claim_C4_amended_w :
    bC4w.formats = .strs ((pySplit "mp4 .pdf ..srt").map pyLstripDot) ∧
    bC4w.skip_formats = .strs ((pySplit ".PPT").map pyLstripDot) :=
  claim_C4_amended envAllYes aC4w bC4w "mp4 .pdf ..srt" ".PPT" rfl rfl rfl

end Coursera
